import Mathlib

/-!
Shallow embedding of the `super_logger` repository
(src/loggers/logger.py and src/loggers/utils.py).

The Python code keeps process-wide mutable state:

* `Logger._instances` — the registry mapping names to instances;
* `Logger._run_id` — the class-level run identifier, set lazily in `__new__`;
* each `Logger` instance holds `handlers` (a dict from handler name to handler
  object), `name`, `log_file_defaullt_dir`, and the lazily set attributes
  `date_dir` and `run_dir`;
* each instance also holds `self.logger = logging.getLogger(name)` — the
  process-wide underlying `logging.Logger` keyed by the same name, with a list
  of attached handlers and a level of its own; emitted records go through it;
* the filesystem: directories created by `os.makedirs` and log files opened by
  `logging.FileHandler`.

We model all of this as one explicit state record `RegState` and translate each
Python method into a state-passing Lean function. Object identity (a Python
reference) is modelled by numeric ids allocated from a counter `nextId`;
`constructed` counts how many `Logger` objects were ever built by the default
`__new__`. Paths are lists of components (the Python code builds them with
`os.path.join`; the separator is irrelevant to the claims). The clock
(`datetime.now`) is modelled by passing the current date and time strings as
explicit arguments to the operations that read it. Python exceptions
(`KeyError`, `AttributeError`) become an `Except PyError` result.
-/

namespace SuperLogger

/-- Python logging level constant `logging.DEBUG`, re-exported on the `Logger`
class (logger.py lines 27-32). -/
def DEBUG : Nat := 10

/-- Python logging level constant `logging.INFO`. -/
def INFO : Nat := 20

/-- Python logging level constant `logging.WARNING`. -/
def WARNING : Nat := 30

/-- Alias `Logger.WARN = logging.WARNING`. -/
def WARN : Nat := 30

/-- Python logging level constant `logging.ERROR`. -/
def ERROR : Nat := 40

/-- Python logging level constant `logging.CRITICAL`. -/
def CRITICAL : Nat := 50

/-- Exceptions the embedded code can raise. The spec calls the lookup failure
`NotFoundError`; the Python code raises `KeyError` (a missing-key lookup
error), which the spec declares equivalent. -/
inductive PyError where
  | keyError
  | attributeError
deriving DecidableEq, Repr

/-- A filesystem path as a list of components. -/
abbrev Path := List String

/-- Embedding of `utils.create_datestamp`: the current date as `YYYY-MM-DD`;
the clock is an explicit argument here. -/
def create_datestamp (d : String) : String := d

/-- Embedding of `utils.create_timestamp`: the current time as `HHMMSS`. -/
def create_timestamp (t : String) : String := t

/-- Embedding of `utils.create_log_datetime_stamp`: the datestamp and the
timestamp joined by an underscore. -/
def create_log_datetime_stamp (d t : String) : String :=
  create_datestamp d ++ "_" ++ create_timestamp t

/-- Embedding of `utils.compose_global_run_id`: the datetime stamp and the run
name joined by an underscore. -/
def compose_global_run_id (d t runName : String) : String :=
  create_log_datetime_stamp d t ++ "_" ++ runName

/-- What a handler writes to: a console stream (`logging.StreamHandler()`) or
a file (`logging.FileHandler(filename, mode, encoding)`). -/
inductive HandlerKind where
  | console
  | file (path : Path) (mode : String) (encoding : String)
deriving DecidableEq, Repr

/-- A handler object: level, format string, sink kind, and whether `close()`
was ever called on it (flushing and releasing the underlying resource). -/
structure Handler where
  level : Nat
  fmt : String
  kind : HandlerKind
  closed : Bool
deriving DecidableEq, Repr

/-- The underlying `logging.Logger` returned by `logging.getLogger(name)`: a
level, the list of attached handler ids, and the records emitted through it
(level, message). -/
structure ULogger where
  level : Nat
  handlers : List Nat
  records : List (Nat × String)
deriving DecidableEq, Repr

/-- Attributes of a `Logger` instance, set in `__init__` or lazily later:
`name`, `handlers` (handler name to handler id), `log_file_defaullt_dir`
(sic, the misspelling is in the source), and the lazily created `date_dir`
and `run_dir` — absent until `_create_todays_log_dir` and `_create_run_id_dir`
first run; reading them before that raises `AttributeError`. -/
structure LoggerInst where
  name : String
  handlers : List (String × Nat)
  log_file_defaullt_dir : Path
  date_dir : Option Path
  run_dir : Option Path
  initialized : Bool
deriving DecidableEq, Repr

/-- The filesystem: existing directories and existing files. -/
structure FS where
  dirs : List Path
  files : List Path
deriving DecidableEq, Repr

/-- The whole process state: the registry `Logger._instances` (name to
instance id), the heap of `Logger` objects, the registry of the `logging`
module (name to underlying logger), the heap of handler objects, the class
attribute `Logger._run_id` (`none` until first set — `__new__` tests it with
`hasattr`), an id allocator, a count of objects constructed by the default
`__new__`, and the filesystem. -/
structure RegState where
  instances : List (String × Nat)
  objs : List (Nat × LoggerInst)
  uloggers : List (String × ULogger)
  hobjs : List (Nat × Handler)
  runId : Option String
  nextId : Nat
  constructed : Nat
  fs : FS
deriving DecidableEq, Repr

/-- Association-list lookup (a Python dict read or `in` test). -/
def alookup {κ α : Type} [DecidableEq κ] : List (κ × α) → κ → Option α
  | [], _ => none
  | (k', v) :: t, k => if k' = k then some v else alookup t k

/-- Association-list write (a Python dict assignment): overwrites in place if
the key is present, appends otherwise. -/
def aset {κ α : Type} [DecidableEq κ] : List (κ × α) → κ → α → List (κ × α)
  | [], k, v => [(k, v)]
  | (k', v') :: t, k, v =>
      if k' = k then (k, v) :: t else (k', v') :: aset t k v

/-- Association-list delete (a Python `del` on a dict entry). -/
def aerase {κ α : Type} [DecidableEq κ] : List (κ × α) → κ → List (κ × α)
  | [], _ => []
  | (k', v') :: t, k => if k' = k then t else (k', v') :: aerase t k

/-- Test that path `q` is `p` itself or lies below the directory `p`. -/
def pathUnder : Path → Path → Bool
  | [], _ => true
  | _, [] => false
  | a :: as, b :: bs => a = b && pathUnder as bs

/-- Embedding of `os.makedirs(p)` guarded by `if not os.path.exists(p)` as the
Python code always does: an already existing directory is left alone (treated
as success). -/
def mkdirIfAbsent (fs : FS) (p : Path) : FS :=
  if p ∈ fs.dirs then fs else { fs with dirs := p :: fs.dirs }

/-- Embedding of `shutil.rmtree(p)`: removes the directory and everything
beneath it. -/
def rmtree (fs : FS) (p : Path) : FS :=
  { dirs := fs.dirs.filter (fun q => ¬ pathUnder p q),
    files := fs.files.filter (fun q => ¬ pathUnder p q) }

/-- Render a path for a log message. -/
def pathString (p : Path) : String := String.intercalate "/" p

/-- Record emission through a `logging.Logger`: the level of the logger gates
whether a record is produced at all. -/
def ULogger.emit (ul : ULogger) (lvl : Nat) (msg : String) : ULogger :=
  if ul.level ≤ lvl then { ul with records := ul.records ++ [(lvl, msg)] } else ul

/-- Embedding of `logging.Logger.addHandler`: appends unless the same handler
object is already attached. -/
def ULogger.addHandler (ul : ULogger) (hid : Nat) : ULogger :=
  if hid ∈ ul.handlers then ul else { ul with handlers := ul.handlers ++ [hid] }

/-- Embedding of `logging.Logger.removeHandler`: removes the handler if
attached. -/
def ULogger.removeHandler (ul : ULogger) (hid : Nat) : ULogger :=
  { ul with handlers := ul.handlers.erase hid }

/-- Emit a record through the underlying logger of the instance named `n`
(`self.logger` followed by a level method in Python). -/
def emitVia (st : RegState) (n : String) (lvl : Nat) (msg : String) : RegState :=
  match alookup st.uloggers n with
  | none => st
  | some ul => { st with uloggers := aset st.uloggers n (ul.emit lvl msg) }

/-- Embedding of `Logger.__new__` followed by `Logger.__init__`, i.e. the call
`Logger(name)`. If the name is registered, `__new__` returns the stored
instance and the `_initialized` guard makes `__init__` a no-op; otherwise a
fresh object is built: its underlying `logging.getLogger(name)` is fetched (or
created at the `logging` default level `WARNING`) and set to level `DEBUG`,
`cls._run_id` is set to `create_log_datetime_stamp()` if not yet present, the
instance is stored in `_instances`, and `__init__` sets an empty handler dict,
the base directory (created on disk if absent) and the initialized flag.
Returns the instance id (the Python reference) and the new state. -/
def loggerCall (st : RegState) (name : String) (d t : String) (baseDir : Path) :
    Nat × RegState :=
  match alookup st.instances name with
  | some iid => (iid, st)
  | none =>
      let iid := st.nextId
      let ul := match alookup st.uloggers name with
        | some u => u
        | none => { level := WARNING, handlers := [], records := [] }
      let ul := { ul with level := DEBUG }
      let rid := match st.runId with
        | some r => some r
        | none => some (create_log_datetime_stamp d t)
      let inst : LoggerInst :=
        { name := name, handlers := [], log_file_defaullt_dir := baseDir,
          date_dir := none, run_dir := none, initialized := true }
      (iid,
        { st with
            instances := aset st.instances name iid,
            objs := aset st.objs iid inst,
            uloggers := aset st.uloggers name ul,
            runId := rid,
            nextId := iid + 1,
            constructed := st.constructed + 1,
            fs := mkdirIfAbsent st.fs baseDir })

/-- Embedding of the classmethod `Logger.get_logger(name)`: returns the
registered instance or raises `KeyError` (what the spec calls
`NotFoundError`). It reads `_instances` and mutates nothing, so it takes the
state and returns only a result. -/
def get_logger (st : RegState) (name : String) : Except PyError Nat :=
  match alookup st.instances name with
  | some iid => Except.ok iid
  | none => Except.error PyError.keyError

/-- Embedding of the classmethod `Logger.set_run_name(run_name)`: assigns
`compose_global_run_id(run_name)` to the class attribute `_run_id`. -/
def set_run_name (st : RegState) (d t runName : String) : RegState :=
  { st with runId := some (compose_global_run_id d t runName) }

/-- Embedding of `Logger._get_run_id()` and of the `run_id` property: both
read the class-level `_run_id` at call time; the instance id is ignored
because the value lives on the class. -/
def run_id (st : RegState) (_iid : Nat) : Option String := st.runId

/-- Embedding of the classmethod `Logger._del_logger(name)`: if the name is
registered, every handler is detached from the underlying `logging.Logger`
(`removeHandler` over a copy of the list, then a `clear()` of the list), and
the name is removed from `_instances`. Handler objects are never closed, and
the `handlers` dict of the instance is not touched. -/
def _del_logger (st : RegState) (name : String) : RegState :=
  match alookup st.instances name with
  | none => st
  | some _ =>
      let st' := match alookup st.uloggers name with
        | none => st
        | some ul =>
            { st with uloggers := aset st.uloggers name { ul with handlers := [] } }
      { st' with instances := aerase st'.instances name }

/-- Embedding of `Logger._handler_exists(handler_name)`. -/
def _handler_exists (inst : LoggerInst) (hname : String) : Bool :=
  (alookup inst.handlers hname).isSome

/-- Embedding of `Logger.add_console_handler(name, level, format)`: warns
through `self.logger` and returns if the handler name exists; otherwise builds
a `StreamHandler` with the given format and level, stores it in the handler
dict and attaches it to `self.logger`. -/
def add_console_handler (st : RegState) (iid : Nat) (hname : String)
    (level : Nat) (fmt : String) : RegState :=
  match alookup st.objs iid with
  | none => st
  | some inst =>
      if _handler_exists inst hname then
        emitVia st inst.name WARNING
          ("Handler with name " ++ hname ++ " already exists in logger "
            ++ inst.name)
      else
        let hid := st.nextId
        let h : Handler :=
          { level := level, fmt := fmt, kind := HandlerKind.console, closed := false }
        let inst' := { inst with handlers := aset inst.handlers hname hid }
        let st' :=
          { st with
              hobjs := aset st.hobjs hid h,
              objs := aset st.objs iid inst',
              nextId := hid + 1 }
        match alookup st'.uloggers inst.name with
        | none => st'
        | some ul =>
            { st' with uloggers := aset st'.uloggers inst.name (ul.addHandler hid) }

/-- Embedding of `Logger._create_todays_log_dir()`: computes the date
directory as the base directory extended by the datestamp, creates it if
absent, stores it on the instance, returns it. -/
def _create_todays_log_dir (inst : LoggerInst) (fs : FS) (d : String) :
    Path × LoggerInst × FS :=
  let dateDir := inst.log_file_defaullt_dir ++ [create_datestamp d]
  (dateDir, { inst with date_dir := some dateDir }, mkdirIfAbsent fs dateDir)

/-- Embedding of `Logger._create_run_id_dir()`: calls
`_create_todays_log_dir`, then computes the run directory as the date
directory extended by the run id, creates it if absent, stores it, returns
it. -/
def _create_run_id_dir (inst : LoggerInst) (fs : FS) (d : String) (rid : String) :
    Path × LoggerInst × FS :=
  let r := _create_todays_log_dir inst fs d
  let runDir := r.1 ++ [rid]
  (runDir, { r.2.1 with run_dir := some runDir }, mkdirIfAbsent r.2.2 runDir)

/-- Embedding of `Logger.add_file_handler(handler_name, level, format)`: warns
and returns on a duplicate name; otherwise composes the full filename from the
run id and the handler name, creates the date and run-id directories via
`_create_run_id_dir`, opens `logging.FileHandler(file_path, mode, encoding)`
with mode `a` and encoding `utf-8` (creating the file), registers and attaches
the handler, and emits a debug message through itself. -/
def add_file_handler (st : RegState) (iid : Nat) (hname : String)
    (level : Nat) (fmt : String) (d : String) : RegState :=
  match alookup st.objs iid with
  | none => st
  | some inst =>
      if _handler_exists inst hname then
        emitVia st inst.name WARNING
          ("Handler with name " ++ hname ++ " already exists in logger "
            ++ inst.name)
      else
        let rid := (st.runId).getD ""
        let fullFilename := rid ++ "_" ++ hname ++ ".log"
        let r := _create_run_id_dir inst st.fs d rid
        let filePath := r.1 ++ [fullFilename]
        let hid := st.nextId
        let h : Handler :=
          { level := level, fmt := fmt,
            kind := HandlerKind.file filePath "a" "utf-8", closed := false }
        let inst' := { r.2.1 with handlers := aset inst.handlers hname hid }
        let fs' :=
          { r.2.2 with
              files := if filePath ∈ r.2.2.files then r.2.2.files
                       else filePath :: r.2.2.files }
        let st' :=
          { st with
              hobjs := aset st.hobjs hid h,
              objs := aset st.objs iid inst',
              nextId := hid + 1,
              fs := fs' }
        let st'' := match alookup st'.uloggers inst.name with
          | none => st'
          | some ul =>
              { st' with uloggers := aset st'.uloggers inst.name (ul.addHandler hid) }
        emitVia st'' inst.name DEBUG
          ("File handler " ++ hname ++ " added to logger " ++ inst.name
            ++ " with path: " ++ pathString filePath)

/-- Embedding of `Logger.join_handler(logger_name, handler_name)`: looks up
the source logger in `_instances` and its handler in the handler dict of the
source (a missing key raises `KeyError`), then assigns the same handler object
into the handler dict of this instance under `handler_name` — a plain dict
write that overwrites any existing entry — and attaches it to `self.logger`. -/
def join_handler (st : RegState) (iid : Nat) (loggerName handlerName : String) :
    Except PyError RegState :=
  match alookup st.objs iid with
  | none => Except.error PyError.keyError
  | some inst =>
      match alookup st.instances loggerName with
      | none => Except.error PyError.keyError
      | some sid =>
          match alookup st.objs sid with
          | none => Except.error PyError.keyError
          | some src =>
              match alookup src.handlers handlerName with
              | none => Except.error PyError.keyError
              | some hid =>
                  let inst' :=
                    { inst with handlers := aset inst.handlers handlerName hid }
                  let st' := { st with objs := aset st.objs iid inst' }
                  match alookup st'.uloggers inst.name with
                  | none => Except.ok st'
                  | some ul =>
                      Except.ok
                        { st' with
                            uloggers :=
                              aset st'.uloggers inst.name (ul.addHandler hid) }

/-- Embedding of `Logger.remove_handler(handler_name)`: if present, detaches
the handler from `self.logger` and deletes it from the handler dict; otherwise
warns through `self.logger`. -/
def remove_handler (st : RegState) (iid : Nat) (hname : String) : RegState :=
  match alookup st.objs iid with
  | none => st
  | some inst =>
      match alookup inst.handlers hname with
      | some hid =>
          let inst' := { inst with handlers := aerase inst.handlers hname }
          let st' := { st with objs := aset st.objs iid inst' }
          match alookup st'.uloggers inst.name with
          | none => st'
          | some ul =>
              { st' with
                  uloggers := aset st'.uloggers inst.name (ul.removeHandler hid) }
      | none =>
          emitVia st inst.name WARNING
            ("Logger.remove_handler() -> Handler " ++ hname
              ++ " does not exist in logger " ++ inst.name)

/-- Embedding of `Logger.set_handler_level(handler_name, level)`: if present,
calls `setLevel(level)` on the handler object; otherwise warns through
`self.logger`. -/
def set_handler_level (st : RegState) (iid : Nat) (hname : String) (level : Nat) :
    RegState :=
  match alookup st.objs iid with
  | none => st
  | some inst =>
      match alookup inst.handlers hname with
      | some hid =>
          match alookup st.hobjs hid with
          | none => st
          | some h =>
              { st with hobjs := aset st.hobjs hid { h with level := level } }
      | none =>
          emitVia st inst.name WARNING
            ("Logger.set_handler_level() -> Handler " ++ hname
              ++ " does not exist in logger " ++ inst.name)

/-- Embedding of `Logger.clear_todays_logs()`: reads the attribute `date_dir`
— which exists only after `_create_todays_log_dir` has run, and raises
`AttributeError` otherwise — and removes the tree if the directory exists. -/
def clear_todays_logs (st : RegState) (iid : Nat) : Except PyError RegState :=
  match alookup st.objs iid with
  | none => Except.error PyError.attributeError
  | some inst =>
      match inst.date_dir with
      | none => Except.error PyError.attributeError
      | some dd =>
          if dd ∈ st.fs.dirs then Except.ok { st with fs := rmtree st.fs dd }
          else Except.ok st

/-- Observation: the handler id stored under a handler name on an instance. -/
def handlerSlot (st : RegState) (iid : Nat) (hname : String) : Option Nat :=
  match alookup st.objs iid with
  | none => none
  | some inst => alookup inst.handlers hname

/-- Observation: the records emitted through the underlying logger named `n`. -/
def recordsOf (st : RegState) (n : String) : List (Nat × String) :=
  match alookup st.uloggers n with
  | none => []
  | some ul => ul.records

/-- Observation: the attached handler-id list of the underlying logger named
`n`. -/
def uhandlersOf (st : RegState) (n : String) : List Nat :=
  match alookup st.uloggers n with
  | none => []
  | some ul => ul.handlers

/-- `ELoggingFormats.FORMAT_BASIC` from utils.py, the default handler format. -/
def FORMAT_BASIC : String := "%(asctime)s - %(levelname)s - %(message)s"

theorem alookup_aset_self {κ α : Type} [DecidableEq κ] (l : List (κ × α))
    (k : κ) (v : α) : alookup (aset l k v) k = some v := by
  induction l with
  | nil => simp [aset, alookup]
  | cons p t ih =>
      obtain ⟨a, b⟩ := p
      by_cases h : a = k
      · simp [aset, alookup, h]
      · simp [aset, alookup, h, ih]

theorem alookup_aset_ne {κ α : Type} [DecidableEq κ] (l : List (κ × α))
    (k k' : κ) (v : α) (h : k' ≠ k) :
    alookup (aset l k v) k' = alookup l k' := by
  induction l with
  | nil => simp [aset, alookup, Ne.symm h]
  | cons p t ih =>
      obtain ⟨a, b⟩ := p
      by_cases ha : a = k
      · subst ha
        simp [aset, alookup, Ne.symm h]
      · simp [aset, alookup, ha, ih]

theorem alookup_eq_none {κ α : Type} [DecidableEq κ] (l : List (κ × α))
    (k : κ) (h : k ∉ l.map Prod.fst) : alookup l k = none := by
  induction l with
  | nil => simp [alookup]
  | cons p t ih =>
      obtain ⟨a, b⟩ := p
      rw [List.map_cons, List.mem_cons] at h
      push_neg at h
      simp [alookup, Ne.symm h.1, ih h.2]

theorem alookup_aerase_self {κ α : Type} [DecidableEq κ] (l : List (κ × α))
    (k : κ) (h : (l.map Prod.fst).Nodup) : alookup (aerase l k) k = none := by
  induction l with
  | nil => simp [aerase, alookup]
  | cons p t ih =>
      obtain ⟨a, b⟩ := p
      rw [List.map_cons, List.nodup_cons] at h
      by_cases ha : a = k
      · subst ha
        simpa [aerase] using alookup_eq_none t a h.1
      · simp [aerase, alookup, ha, ih h.2]

theorem mem_mkdirIfAbsent_self (fs : FS) (p : Path) :
    p ∈ (mkdirIfAbsent fs p).dirs := by
  by_cases h : p ∈ fs.dirs <;> simp [mkdirIfAbsent, h]

theorem mem_mkdirIfAbsent_mono (fs : FS) (p q : Path) (h : q ∈ fs.dirs) :
    q ∈ (mkdirIfAbsent fs p).dirs := by
  by_cases hp : p ∈ fs.dirs <;> simp [mkdirIfAbsent, hp, h]

instance instDecidableEqExcept {ε α : Type} [DecidableEq ε] [DecidableEq α] :
    DecidableEq (Except ε α) := fun x y =>
  match x, y with
  | Except.ok a, Except.ok b =>
      if h : a = b then Decidable.isTrue (by rw [h])
      else Decidable.isFalse (by simp [h])
  | Except.error a, Except.error b =>
      if h : a = b then Decidable.isTrue (by rw [h])
      else Decidable.isFalse (by simp [h])
  | Except.ok _, Except.error _ => Decidable.isFalse (by simp)
  | Except.error _, Except.ok _ => Decidable.isFalse (by simp)

/-- The initial, empty process state. -/
def st0 : RegState :=
  { instances := [], objs := [], uloggers := [], hobjs := [], runId := none,
    nextId := 0, constructed := 0, fs := { dirs := [], files := [] } }

/-- The default base directory `data\logs`, as path components. -/
def baseDir : Path := ["data", "logs"]

/-- State after the call `Logger("test")` on 2026-10-12 at 09:00:00; the new
instance has id 0 and the run id becomes `2026-10-12_090000`. -/
def st1 : RegState := (loggerCall st0 "test" "2026-10-12" "090000" baseDir).2

/-- State after `add_file_handler("file_1", DEBUG)` on the `test` logger the
same day; the new handler has id 1. -/
def stT : RegState := add_file_handler st1 0 "file_1" DEBUG FORMAT_BASIC "2026-10-12"

/-- The instance object of logger `test` in `stT` (defaulting never fires). -/
def instT : LoggerInst :=
  match alookup stT.objs 0 with
  | some i => i
  | none =>
      { name := "", handlers := [], log_file_defaullt_dir := [],
        date_dir := none, run_dir := none, initialized := false }

/-- The underlying logger of `test` in `stT` (defaulting never fires). -/
def ulT : ULogger :=
  match alookup stT.uloggers "test" with
  | some u => u
  | none => { level := 0, handlers := [], records := [] }

/-- Scenario for the join-handler claim: loggers `A` (id 0) and `B` (id 1). -/
def stA2 : RegState :=
  (loggerCall (loggerCall st0 "A" "2026-10-12" "090000" baseDir).2
    "B" "2026-10-12" "090000" baseDir).2

/-- Console handler `h` (id 2) added to `A`. -/
def stA3 : RegState := add_console_handler stA2 0 "h" INFO FORMAT_BASIC

/-- Console handler `h` (id 3) added to `B`: both loggers now own a distinct
handler under the same name `h`. -/
def stJpre : RegState := add_console_handler stA3 1 "h" INFO FORMAT_BASIC

theorem aset_aset {κ α : Type} [DecidableEq κ] (l : List (κ × α)) (k : κ)
    (v w : α) : aset (aset l k v) k w = aset l k w := by
  induction l with
  | nil => simp [aset]
  | cons p t ih =>
      obtain ⟨a, b⟩ := p
      by_cases h : a = k
      · simp [aset, h]
      · simp [aset, h, ih]

/-- Duplicate-name branch of `add_console_handler`: the whole state is
unchanged except for one WARNING record appended through the underlying logger
of this instance. -/
theorem add_console_handler_dup (st : RegState) (iid : Nat) (inst : LoggerInst)
    (hname : String) (lvl : Nat) (fmt : String) (hid : Nat) (ul : ULogger)
    (hobj : alookup st.objs iid = some inst)
    (hslot : alookup inst.handlers hname = some hid)
    (hul : alookup st.uloggers inst.name = some ul)
    (hlev : ul.level ≤ WARNING) :
    add_console_handler st iid hname lvl fmt =
      { st with
          uloggers :=
            aset st.uloggers inst.name
              { ul with
                  records := ul.records ++
                    [(WARNING, "Handler with name " ++ hname
                      ++ " already exists in logger " ++ inst.name)] } } := by
  simp [add_console_handler, hobj, _handler_exists, hslot, emitVia, hul,
    ULogger.emit, hlev]

/-- Duplicate-name branch of `add_file_handler`: same warned no-op. -/
theorem add_file_handler_dup (st : RegState) (iid : Nat) (inst : LoggerInst)
    (hname : String) (lvl : Nat) (fmt : String) (d : String) (hid : Nat)
    (ul : ULogger)
    (hobj : alookup st.objs iid = some inst)
    (hslot : alookup inst.handlers hname = some hid)
    (hul : alookup st.uloggers inst.name = some ul)
    (hlev : ul.level ≤ WARNING) :
    add_file_handler st iid hname lvl fmt d =
      { st with
          uloggers :=
            aset st.uloggers inst.name
              { ul with
                  records := ul.records ++
                    [(WARNING, "Handler with name " ++ hname
                      ++ " already exists in logger " ++ inst.name)] } } := by
  simp [add_file_handler, hobj, _handler_exists, hslot, emitVia, hul,
    ULogger.emit, hlev]

theorem mem_insertIfAbsent (p : Path) (l : List Path) :
    p ∈ (if p ∈ l then l else p :: l) := by
  by_cases h : p ∈ l <;> simp [h]

/-- Fresh-name branch of `add_console_handler`: the slot becomes attached to
the freshly allocated handler. -/
theorem add_console_handler_fresh (st : RegState) (iid : Nat)
    (inst : LoggerInst) (hname : String) (lvl : Nat) (fmt : String)
    (hobj : alookup st.objs iid = some inst)
    (hslot : alookup inst.handlers hname = none) :
    handlerSlot (add_console_handler st iid hname lvl fmt) iid hname =
      some st.nextId := by
  have hex : _handler_exists inst hname = false := by
    simp [_handler_exists, hslot]
  simp only [add_console_handler, hobj, hex, Bool.false_eq_true, if_false]
  split
  · simp [handlerSlot, alookup_aset_self]
  · simp [handlerSlot, alookup_aset_self]

/-- Fresh-name branch of `add_file_handler`: the new handler records exactly
the path base/datestamp/runid/runid_name.log with mode `a` and encoding
`utf-8`; the date directory, the run-id directory and the log file all exist
afterwards (pre-existing directories are treated as success by the existence
guard), and the slot becomes attached to the fresh handler. -/
theorem add_file_handler_fresh_spec (st : RegState) (iid : Nat)
    (inst : LoggerInst) (hname : String) (lvl : Nat) (fmt : String)
    (d rid : String)
    (hobj : alookup st.objs iid = some inst)
    (hslot : alookup inst.handlers hname = none)
    (hrid : st.runId = some rid) :
    alookup (add_file_handler st iid hname lvl fmt d).hobjs st.nextId =
      some { level := lvl, fmt := fmt,
             kind := HandlerKind.file
               (inst.log_file_defaullt_dir ++
                 [d, rid, rid ++ "_" ++ hname ++ ".log"]) "a" "utf-8",
             closed := false } ∧
    (inst.log_file_defaullt_dir ++ [d]) ∈
      (add_file_handler st iid hname lvl fmt d).fs.dirs ∧
    (inst.log_file_defaullt_dir ++ [d, rid]) ∈
      (add_file_handler st iid hname lvl fmt d).fs.dirs ∧
    (inst.log_file_defaullt_dir ++ [d, rid, rid ++ "_" ++ hname ++ ".log"]) ∈
      (add_file_handler st iid hname lvl fmt d).fs.files ∧
    handlerSlot (add_file_handler st iid hname lvl fmt d) iid hname =
      some st.nextId := by
  have hex : _handler_exists inst hname = false := by
    simp [_handler_exists, hslot]
  simp only [add_file_handler, hobj, hex, Bool.false_eq_true, if_false, hrid,
    Option.getD_some, _create_run_id_dir, _create_todays_log_dir,
    create_datestamp]
  unfold emitVia
  split <;> split <;>
    simp [handlerSlot, alookup_aset_self, mem_mkdirIfAbsent_self,
      mem_mkdirIfAbsent_mono, mem_insertIfAbsent, List.append_assoc]

/-- Present branch of `remove_handler`: the handler is deleted from the dict
of the instance and detached from the underlying logger; nothing else
changes. -/
theorem remove_handler_present (st : RegState) (iid : Nat) (inst : LoggerInst)
    (hname : String) (hid : Nat) (ul : ULogger)
    (hobj : alookup st.objs iid = some inst)
    (hslot : alookup inst.handlers hname = some hid)
    (hul : alookup st.uloggers inst.name = some ul) :
    remove_handler st iid hname =
      { st with
          objs :=
            aset st.objs iid
              { inst with handlers := aerase inst.handlers hname },
          uloggers :=
            aset st.uloggers inst.name
              { ul with handlers := ul.handlers.erase hid } } := by
  simp [remove_handler, hobj, hslot, hul, ULogger.removeHandler]

/-- Absent branch of `remove_handler`: the state is unchanged except for one
WARNING record through the underlying logger of this instance. -/
theorem remove_handler_absent (st : RegState) (iid : Nat) (inst : LoggerInst)
    (hname : String) (ul : ULogger)
    (hobj : alookup st.objs iid = some inst)
    (hslot : alookup inst.handlers hname = none)
    (hul : alookup st.uloggers inst.name = some ul)
    (hlev : ul.level ≤ WARNING) :
    remove_handler st iid hname =
      { st with
          uloggers :=
            aset st.uloggers inst.name
              { ul with
                  records := ul.records ++
                    [(WARNING, "Logger.remove_handler() -> Handler " ++ hname
                      ++ " does not exist in logger " ++ inst.name)] } } := by
  simp [remove_handler, hobj, hslot, emitVia, hul, ULogger.emit, hlev]

/-- Present branch of `set_handler_level`: only the level field of the handler
object changes. -/
theorem set_handler_level_present (st : RegState) (iid : Nat)
    (inst : LoggerInst) (hname : String) (hid : Nat) (h : Handler) (lvl : Nat)
    (hobj : alookup st.objs iid = some inst)
    (hslot : alookup inst.handlers hname = some hid)
    (hh : alookup st.hobjs hid = some h) :
    set_handler_level st iid hname lvl =
      { st with hobjs := aset st.hobjs hid { h with level := lvl } } := by
  simp [set_handler_level, hobj, hslot, hh]

/-- Absent branch of `set_handler_level`: warned no-op. -/
theorem set_handler_level_absent (st : RegState) (iid : Nat)
    (inst : LoggerInst) (hname : String) (lvl : Nat) (ul : ULogger)
    (hobj : alookup st.objs iid = some inst)
    (hslot : alookup inst.handlers hname = none)
    (hul : alookup st.uloggers inst.name = some ul)
    (hlev : ul.level ≤ WARNING) :
    set_handler_level st iid hname lvl =
      { st with
          uloggers :=
            aset st.uloggers inst.name
              { ul with
                  records := ul.records ++
                    [(WARNING, "Logger.set_handler_level() -> Handler " ++ hname
                      ++ " does not exist in logger " ++ inst.name)] } } := by
  simp [set_handler_level, hobj, hslot, emitVia, hul, ULogger.emit, hlev]

/-- Successful `join_handler`: the very handler object of the source logger is
written into the handler dict of this instance — overwriting whatever the slot
held — and attached to the underlying logger; no warning is emitted. -/
theorem join_handler_present (st : RegState) (iid : Nat) (inst : LoggerInst)
    (srcName hname : String) (sid : Nat) (src : LoggerInst) (shid : Nat)
    (ul : ULogger)
    (hobj : alookup st.objs iid = some inst)
    (hsrc : alookup st.instances srcName = some sid)
    (hsobj : alookup st.objs sid = some src)
    (hshid : alookup src.handlers hname = some shid)
    (hul : alookup st.uloggers inst.name = some ul) :
    join_handler st iid srcName hname =
      Except.ok
        { st with
            objs :=
              aset st.objs iid
                { inst with handlers := aset inst.handlers hname shid },
            uloggers := aset st.uloggers inst.name (ul.addHandler shid) } := by
  simp [join_handler, hobj, hsrc, hsobj, hshid, hul]

/-- The instance object of logger `A` (id 0) in `stJpre`. -/
def instA : LoggerInst :=
  match alookup stJpre.objs 0 with
  | some i => i
  | none =>
      { name := "", handlers := [], log_file_defaullt_dir := [],
        date_dir := none, run_dir := none, initialized := false }

/-- The instance object of logger `B` (id 1) in `stJpre`. -/
def instB : LoggerInst :=
  match alookup stJpre.objs 1 with
  | some i => i
  | none =>
      { name := "", handlers := [], log_file_defaullt_dir := [],
        date_dir := none, run_dir := none, initialized := false }

/-- The underlying logger of `B` in `stJpre`. -/
def ulB : ULogger :=
  match alookup stJpre.uloggers "B" with
  | some u => u
  | none => { level := 0, handlers := [], records := [] }

/-- The file handler object (id 1) of logger `test` in `stT`. -/
def hT : Handler :=
  match alookup stT.hobjs 1 with
  | some h => h
  | none => { level := 0, fmt := "", kind := HandlerKind.console, closed := false }

/-- State after `_del_logger("test")` on `stT`. -/
def stDel : RegState := _del_logger stT "test"

/-- C1: for every name, requesting a Logger by name twice returns the
identical instance (the same reference id) and the second request leaves the
state produced by the first request completely unchanged — in particular the
construction counter does not grow, so nothing new is constructed. -/
theorem C1_get_or_create_idempotent (st : RegState)
    (name d1 t1 d2 t2 : String) (b1 b2 : Path) :
    loggerCall (loggerCall st name d1 t1 b1).2 name d2 t2 b2 =
      ((loggerCall st name d1 t1 b1).1, (loggerCall st name d1 t1 b1).2) := by
  cases h : alookup st.instances name with
  | some iid => simp [loggerCall, h]
  | none => simp [loggerCall, h, alookup_aset_self]

/-- C2, counterexample: in `stJpre` logger `B` (id 1) holds handler 3 under
the name `h` while logger `A` (id 0) holds the distinct handler 2 under the
same name; `join_handler` from `A` on `B` is an attach under a name already
present on `B`, yet it is not a warned no-op: it overwrites the slot of `B`
(afterwards the slot holds handler 2) and records no warning. -/
theorem C2_counterexample_join_overwrites :
    handlerSlot stJpre 1 "h" = some 3 ∧
    handlerSlot stJpre 0 "h" = some 2 ∧
    Except.map (fun s => handlerSlot s 1 "h") (join_handler stJpre 1 "A" "h") =
      Except.ok (some 2) ∧
    Except.map (fun s => recordsOf s "B") (join_handler stJpre 1 "A" "h") =
      Except.ok (recordsOf stJpre "B") := by decide

/-- C2 (amended): per handler-name slot, `add_console_handler` and
`add_file_handler` attach only when the slot is absent and are a warning-only
no-op when it is attached (no overwrite, no new handler object), and
`remove_handler` moves an attached slot back to absent; `join_handler`,
however, attaches unconditionally: invoked with a handler name already present
on this Logger it silently overwrites the slot with the handler object of the
source logger. -/
theorem C2_slot_state_machine (st : RegState) (iid : Nat) (inst : LoggerInst)
    (hname : String) (lvl : Nat) (fmt : String) (d : String) (ul : ULogger)
    (hobj : alookup st.objs iid = some inst)
    (hul : alookup st.uloggers inst.name = some ul)
    (hlev : ul.level ≤ WARNING)
    (hnd : (inst.handlers.map Prod.fst).Nodup) :
    (alookup inst.handlers hname = none →
      handlerSlot (add_console_handler st iid hname lvl fmt) iid hname =
        some st.nextId) ∧
    (∀ hid, alookup inst.handlers hname = some hid →
      handlerSlot (add_console_handler st iid hname lvl fmt) iid hname =
        some hid ∧
      (add_console_handler st iid hname lvl fmt).hobjs = st.hobjs ∧
      handlerSlot (add_file_handler st iid hname lvl fmt d) iid hname =
        some hid ∧
      (add_file_handler st iid hname lvl fmt d).hobjs = st.hobjs ∧
      handlerSlot (remove_handler st iid hname) iid hname = none) ∧
    (∀ srcName sid src shid,
      alookup st.instances srcName = some sid →
      alookup st.objs sid = some src →
      alookup src.handlers hname = some shid →
      Except.map (fun s => handlerSlot s iid hname)
        (join_handler st iid srcName hname) = Except.ok (some shid)) := by
  refine ⟨?_, ?_, ?_⟩
  · intro hs
    exact add_console_handler_fresh st iid inst hname lvl fmt hobj hs
  · intro hid hs
    have hc := add_console_handler_dup st iid inst hname lvl fmt hid ul hobj
      hs hul hlev
    have hf := add_file_handler_dup st iid inst hname lvl fmt d hid ul hobj
      hs hul hlev
    have hr := remove_handler_present st iid inst hname hid ul hobj hs hul
    refine ⟨?_, ?_, ?_, ?_, ?_⟩
    · rw [hc]; simp [handlerSlot, hobj, hs]
    · rw [hc]
    · rw [hf]; simp [handlerSlot, hobj, hs]
    · rw [hf]
    · rw [hr]
      simp only [handlerSlot, alookup_aset_self]
      exact alookup_aerase_self inst.handlers hname hnd
  · intro srcName sid src shid h1 h2 h3
    rw [join_handler_present st iid inst srcName hname sid src shid ul hobj
      h1 h2 h3 hul]
    simp [Except.map, handlerSlot, alookup_aset_self]

/-- C2, witness for the amended state machine on the concrete two-logger
scenario: attaching a fresh name on `B` attaches the fresh handler, removing
an attached name empties the slot, and joining from `A` under the attached
name `h` overwrites the slot of `B` with handler 2 of `A`. -/
theorem C2_slot_state_machine_witness :
    handlerSlot (add_console_handler stJpre 1 "h2" 20 FORMAT_BASIC) 1 "h2" =
      some stJpre.nextId ∧
    handlerSlot (remove_handler stJpre 1 "h") 1 "h" = none ∧
    Except.map (fun s => handlerSlot s 1 "h") (join_handler stJpre 1 "A" "h") =
      Except.ok (some 2) := by
  have H1 := C2_slot_state_machine stJpre 1 instB "h2" 20 FORMAT_BASIC
    "2026-10-12" ulB (by decide) (by decide) (by decide) (by decide)
  have H2 := C2_slot_state_machine stJpre 1 instB "h" 20 FORMAT_BASIC
    "2026-10-12" ulB (by decide) (by decide) (by decide) (by decide)
  exact ⟨H1.1 (by decide), (H2.2.1 3 (by decide)).2.2.2.2,
    H2.2.2 "A" 0 instA 2 (by decide) (by decide) (by decide)⟩

/-- C3: evaluating `_del_logger("test")` on a registry holding the logger
`test` with one open file handler: the name is removed from the registry and
every handler is detached from the underlying logger, but the handler object
is never closed — its file resource is not flushed or released — although the
claim, and the comment in the source ("Properly remove and close all
handlers"), promise closing. Deleting an unregistered name is a no-op, as
claimed. -/
theorem C3_delete_detaches_but_never_closes :
    alookup stDel.instances "test" = none ∧
    uhandlersOf stDel "test" = [] ∧
    Option.map Handler.closed (alookup stDel.hobjs 1) = some false ∧
    _del_logger stT "ghost" = stT := by decide

/-- C4: calling `add_console_handler` or `add_file_handler` with a handler
name already present on the Logger leaves the whole state — in particular the
handler heap, so the existing handler object with its level and format —
untouched except for exactly one WARNING record appended through the
underlying logger of this very instance; nothing is registered. -/
theorem C4_duplicate_add_is_warned_noop (st : RegState) (iid : Nat)
    (inst : LoggerInst) (hname : String) (lvl : Nat) (fmt : String)
    (d : String) (hid : Nat) (ul : ULogger)
    (hobj : alookup st.objs iid = some inst)
    (hslot : alookup inst.handlers hname = some hid)
    (hul : alookup st.uloggers inst.name = some ul)
    (hlev : ul.level ≤ WARNING) :
    add_console_handler st iid hname lvl fmt =
      { st with
          uloggers :=
            aset st.uloggers inst.name
              { ul with
                  records := ul.records ++
                    [(WARNING, "Handler with name " ++ hname
                      ++ " already exists in logger " ++ inst.name)] } } ∧
    add_file_handler st iid hname lvl fmt d =
      { st with
          uloggers :=
            aset st.uloggers inst.name
              { ul with
                  records := ul.records ++
                    [(WARNING, "Handler with name " ++ hname
                      ++ " already exists in logger " ++ inst.name)] } } :=
  ⟨add_console_handler_dup st iid inst hname lvl fmt hid ul hobj hslot hul hlev,
   add_file_handler_dup st iid inst hname lvl fmt d hid ul hobj hslot hul hlev⟩

/-- C4, witness: re-adding `file_1` on the concrete logger `test`. -/
theorem C4_duplicate_add_witness :
    add_console_handler stT 0 "file_1" 20 FORMAT_BASIC =
      { stT with
          uloggers :=
            aset stT.uloggers instT.name
              { ulT with
                  records := ulT.records ++
                    [(WARNING, "Handler with name " ++ "file_1"
                      ++ " already exists in logger " ++ instT.name)] } } ∧
    add_file_handler stT 0 "file_1" 20 FORMAT_BASIC "2026-10-12" =
      { stT with
          uloggers :=
            aset stT.uloggers instT.name
              { ulT with
                  records := ulT.records ++
                    [(WARNING, "Handler with name " ++ "file_1"
                      ++ " already exists in logger " ++ instT.name)] } } :=
  C4_duplicate_add_is_warned_noop stT 0 instT "file_1" 20 FORMAT_BASIC
    "2026-10-12" 1 ulT (by decide) (by decide) (by decide) (by decide)

/-- C5: for a fresh handler name, `add_file_handler` opens its target file at
exactly base/datestamp/runid/runid_name.log — the new handler object records
that path, opened in append mode with UTF-8 encoding — the date and run-id
directories exist afterwards whether or not they existed before (creation is
guarded by an existence check, so a pre-existing directory counts as success),
the log file exists, and the handler is registered under the fresh name. -/
theorem C5_file_handler_target_path (st : RegState) (iid : Nat)
    (inst : LoggerInst) (hname : String) (lvl : Nat) (fmt : String)
    (d rid : String)
    (hobj : alookup st.objs iid = some inst)
    (hslot : alookup inst.handlers hname = none)
    (hrid : st.runId = some rid) :
    alookup (add_file_handler st iid hname lvl fmt d).hobjs st.nextId =
      some { level := lvl, fmt := fmt,
             kind := HandlerKind.file
               (inst.log_file_defaullt_dir ++
                 [d, rid, rid ++ "_" ++ hname ++ ".log"]) "a" "utf-8",
             closed := false } ∧
    (inst.log_file_defaullt_dir ++ [d]) ∈
      (add_file_handler st iid hname lvl fmt d).fs.dirs ∧
    (inst.log_file_defaullt_dir ++ [d, rid]) ∈
      (add_file_handler st iid hname lvl fmt d).fs.dirs ∧
    (inst.log_file_defaullt_dir ++ [d, rid, rid ++ "_" ++ hname ++ ".log"]) ∈
      (add_file_handler st iid hname lvl fmt d).fs.files ∧
    handlerSlot (add_file_handler st iid hname lvl fmt d) iid hname =
      some st.nextId :=
  add_file_handler_fresh_spec st iid inst hname lvl fmt d rid hobj hslot hrid

/-- C5, witness: adding `file_2` to the concrete logger `test`. -/
theorem C5_file_handler_target_path_witness :
    alookup (add_file_handler stT 0 "file_2" 20 FORMAT_BASIC
        "2026-10-12").hobjs stT.nextId =
      some { level := 20, fmt := FORMAT_BASIC,
             kind := HandlerKind.file
               (instT.log_file_defaullt_dir ++
                 ["2026-10-12", "2026-10-12_090000",
                  "2026-10-12_090000" ++ "_" ++ "file_2" ++ ".log"])
               "a" "utf-8",
             closed := false } ∧
    (instT.log_file_defaullt_dir ++ ["2026-10-12"]) ∈
      (add_file_handler stT 0 "file_2" 20 FORMAT_BASIC "2026-10-12").fs.dirs ∧
    (instT.log_file_defaullt_dir ++ ["2026-10-12", "2026-10-12_090000"]) ∈
      (add_file_handler stT 0 "file_2" 20 FORMAT_BASIC "2026-10-12").fs.dirs ∧
    (instT.log_file_defaullt_dir ++
        ["2026-10-12", "2026-10-12_090000",
         "2026-10-12_090000" ++ "_" ++ "file_2" ++ ".log"]) ∈
      (add_file_handler stT 0 "file_2" 20 FORMAT_BASIC "2026-10-12").fs.files ∧
    handlerSlot (add_file_handler stT 0 "file_2" 20 FORMAT_BASIC "2026-10-12")
        0 "file_2" =
      some stT.nextId :=
  C5_file_handler_target_path stT 0 instT "file_2" 20 FORMAT_BASIC
    "2026-10-12" "2026-10-12_090000" (by decide) (by decide) (by decide)

/-- C6: `get_logger` fails with the lookup error (`KeyError`, which the spec
names `NotFoundError`) exactly when the name is unregistered, and returns the
registered instance for a registered name; it is a pure read — the embedding
returns only a result and therefore cannot modify the registry, matching the
mutation-free Python classmethod. -/
theorem C6_get_logger_spec (st : RegState) (name : String) :
    (alookup st.instances name = none ↔
      get_logger st name = Except.error PyError.keyError) ∧
    ∀ iid, alookup st.instances name = some iid →
      get_logger st name = Except.ok iid := by
  cases h : alookup st.instances name with
  | some iid => simp [get_logger, h]
  | none => simp [get_logger, h]

/-- C6, witness: lookup of the registered `test` and the unregistered
`ghost`. -/
theorem C6_get_logger_witness :
    get_logger st1 "ghost" = Except.error PyError.keyError ∧
    get_logger st1 "test" = Except.ok 0 :=
  ⟨(C6_get_logger_spec st1 "ghost").1.mp (by decide),
   (C6_get_logger_spec st1 "test").2 0 (by decide)⟩

/-- C7: `set_run_name` regenerates the class-wide run identifier as the
generation datetime stamp joined to the run name by an underscore
(YYYY-MM-DD_HHMMSS_run_name) and changes nothing else — in particular the
handler heap, where open file handlers hold their paths, and the filesystem
are untouched, so already-open file handlers keep their original paths. -/
theorem C7_set_run_name_spec (st : RegState) (d t runName : String) :
    set_run_name st d t runName =
      { st with runId := some ((d ++ "_" ++ t) ++ "_" ++ runName) } ∧
    (set_run_name st d t runName).hobjs = st.hobjs ∧
    (set_run_name st d t runName).fs = st.fs :=
  ⟨rfl, rfl, rfl⟩

/-- C8: on a present handler name, `remove_handler` detaches the handler from
the underlying logger and unregisters it from the slot (leaving all handler
objects intact), and `set_handler_level` updates exactly the level of the
handler object; on an absent name each operation changes nothing except one
WARNING record emitted through the underlying logger of this instance. -/
theorem C8_remove_and_set_level_spec (st : RegState) (iid : Nat)
    (inst : LoggerInst) (hname : String) (lvl : Nat) (ul : ULogger)
    (hobj : alookup st.objs iid = some inst)
    (hul : alookup st.uloggers inst.name = some ul)
    (hlev : ul.level ≤ WARNING)
    (hnd : (inst.handlers.map Prod.fst).Nodup) :
    (∀ hid, alookup inst.handlers hname = some hid →
      handlerSlot (remove_handler st iid hname) iid hname = none ∧
      uhandlersOf (remove_handler st iid hname) inst.name =
        ul.handlers.erase hid ∧
      (remove_handler st iid hname).hobjs = st.hobjs ∧
      ∀ h, alookup st.hobjs hid = some h →
        set_handler_level st iid hname lvl =
          { st with hobjs := aset st.hobjs hid { h with level := lvl } }) ∧
    (alookup inst.handlers hname = none →
      remove_handler st iid hname =
        { st with
            uloggers :=
              aset st.uloggers inst.name
                { ul with
                    records := ul.records ++
                      [(WARNING,
                        "Logger.remove_handler() -> Handler " ++ hname
                          ++ " does not exist in logger " ++ inst.name)] } } ∧
      set_handler_level st iid hname lvl =
        { st with
            uloggers :=
              aset st.uloggers inst.name
                { ul with
                    records := ul.records ++
                      [(WARNING,
                        "Logger.set_handler_level() -> Handler " ++ hname
                          ++ " does not exist in logger " ++ inst.name)] } }) := by
  constructor
  · intro hid hs
    have hr := remove_handler_present st iid inst hname hid ul hobj hs hul
    refine ⟨?_, ?_, ?_, ?_⟩
    · rw [hr]
      simp only [handlerSlot, alookup_aset_self]
      exact alookup_aerase_self inst.handlers hname hnd
    · rw [hr]
      simp [uhandlersOf, alookup_aset_self]
    · rw [hr]
    · intro h hh
      exact set_handler_level_present st iid inst hname hid h lvl hobj hs hh
  · intro hs
    exact ⟨remove_handler_absent st iid inst hname ul hobj hs hul hlev,
      set_handler_level_absent st iid inst hname lvl ul hobj hs hul hlev⟩

/-- C8, witness: removing the present `file_1`, retargeting its level, and the
warned no-op on the absent name `nope`, on the concrete logger `test`. -/
theorem C8_remove_and_set_level_witness :
    handlerSlot (remove_handler stT 0 "file_1") 0 "file_1" = none ∧
    set_handler_level stT 0 "file_1" 40 =
      { stT with hobjs := aset stT.hobjs 1 { hT with level := 40 } } ∧
    remove_handler stT 0 "nope" =
      { stT with
          uloggers :=
            aset stT.uloggers instT.name
              { ulT with
                  records := ulT.records ++
                    [(WARNING,
                      "Logger.remove_handler() -> Handler " ++ "nope"
                        ++ " does not exist in logger " ++ instT.name)] } } := by
  have H := C8_remove_and_set_level_spec stT 0 instT "file_1" 40 ulT
    (by decide) (by decide) (by decide) (by decide)
  have H2 := C8_remove_and_set_level_spec stT 0 instT "nope" 40 ulT
    (by decide) (by decide) (by decide) (by decide)
  exact ⟨(H.1 1 (by decide)).1, (H.1 1 (by decide)).2.2.2 hT (by decide),
    (H2.2 (by decide)).1⟩

/-- C9, counterexample: on the freshly created logger `test` — no file handler
was ever added, so the `date_dir` attribute was never set — `clear_todays_logs`
does not complete without error: it raises `AttributeError`. -/
theorem C9_counterexample_fresh_logger_raises :
    clear_todays_logs st1 0 = Except.error PyError.attributeError := by decide

/-- C9 (amended): once the Logger has computed its date directory (which
happens on its first `add_file_handler`), `clear_todays_logs` recursively
deletes that date directory with everything beneath it when it exists, and
otherwise completes without effect and without error; but on a Logger whose
`date_dir` attribute was never set — one on which no file handler was ever
added — it raises `AttributeError` instead of completing without error. -/
theorem C9_clear_todays_logs_spec (st : RegState) (iid : Nat)
    (inst : LoggerInst)
    (hobj : alookup st.objs iid = some inst) :
    (∀ dd, inst.date_dir = some dd →
      clear_todays_logs st iid =
        Except.ok
          (if dd ∈ st.fs.dirs then
            { st with
                fs :=
                  { dirs := st.fs.dirs.filter (fun q => ¬ pathUnder dd q),
                    files := st.fs.files.filter (fun q => ¬ pathUnder dd q) } }
          else st)) ∧
    (inst.date_dir = none →
      clear_todays_logs st iid = Except.error PyError.attributeError) := by
  constructor
  · intro dd hdd
    by_cases hmem : dd ∈ st.fs.dirs <;>
      simp [clear_todays_logs, hobj, hdd, hmem, rmtree]
  · intro hdd
    simp [clear_todays_logs, hobj, hdd]

/-- C9, witness: on the concrete logger `test` (after its file handler was
added) today's date directory exists and is recursively deleted. -/
theorem C9_clear_todays_logs_witness :
    clear_todays_logs stT 0 =
      Except.ok
        (if ["data", "logs", "2026-10-12"] ∈ stT.fs.dirs then
          { stT with
              fs :=
                { dirs := stT.fs.dirs.filter
                    (fun q => ¬ pathUnder ["data", "logs", "2026-10-12"] q),
                  files := stT.fs.files.filter
                    (fun q => ¬ pathUnder ["data", "logs", "2026-10-12"] q) } }
        else stT) :=
  (C9_clear_todays_logs_spec stT 0 instT (by decide)).1
    ["data", "logs", "2026-10-12"] (by decide)

/-- C10: the run identifier is one class-wide value: the `run_id` property of
every instance reads the same class attribute, after `set_run_name` every
instance — including one created before the call — observes the new
identifier, and a file handler added to such a pre-existing instance
afterwards composes its file path from the new identifier read at add time,
not from any value captured at construction (the instance record holds no
per-instance run field at all). -/
theorem C10_run_id_is_class_wide (st : RegState) (iid : Nat)
    (inst : LoggerInst) (hname : String) (lvl : Nat) (fmt : String)
    (d t rn dcall : String)
    (hobj : alookup st.objs iid = some inst)
    (hslot : alookup inst.handlers hname = none) :
    (∀ i j, run_id st i = run_id st j) ∧
    run_id (set_run_name st d t rn) iid = some ((d ++ "_" ++ t) ++ "_" ++ rn) ∧
    alookup (add_file_handler (set_run_name st d t rn) iid hname lvl fmt
        dcall).hobjs st.nextId =
      some { level := lvl, fmt := fmt,
             kind := HandlerKind.file
               (inst.log_file_defaullt_dir ++
                 [dcall, (d ++ "_" ++ t) ++ "_" ++ rn,
                  ((d ++ "_" ++ t) ++ "_" ++ rn) ++ "_" ++ hname ++ ".log"])
               "a" "utf-8",
             closed := false } := by
  refine ⟨fun i j => rfl, rfl, ?_⟩
  have hobj' : alookup (set_run_name st d t rn).objs iid = some inst := hobj
  have hrid : (set_run_name st d t rn).runId =
      some ((d ++ "_" ++ t) ++ "_" ++ rn) := rfl
  exact (add_file_handler_fresh_spec (set_run_name st d t rn) iid inst hname
    lvl fmt dcall ((d ++ "_" ++ t) ++ "_" ++ rn) hobj' hslot hrid).1

/-- C10, witness: renaming the run, then adding `file_3` on the pre-existing
logger `test`; the path is composed from the new identifier. -/
theorem C10_run_id_is_class_wide_witness :
    alookup (add_file_handler (set_run_name stT "2026-10-12" "110000" "exp")
        0 "file_3" 20 FORMAT_BASIC "2026-10-12").hobjs stT.nextId =
      some { level := 20, fmt := FORMAT_BASIC,
             kind := HandlerKind.file
               (instT.log_file_defaullt_dir ++
                 ["2026-10-12",
                  ("2026-10-12" ++ "_" ++ "110000") ++ "_" ++ "exp",
                  (("2026-10-12" ++ "_" ++ "110000") ++ "_" ++ "exp") ++ "_"
                    ++ "file_3" ++ ".log"])
               "a" "utf-8",
             closed := false } :=
  (C10_run_id_is_class_wide stT 0 instT "file_3" 20 FORMAT_BASIC "2026-10-12"
    "110000" "exp" "2026-10-12" (by decide) (by decide)).2.2

end SuperLogger
